import Mathlib

/-!
Shallow embedding of the credit-gated image-analysis service.

Source layout:
  - src/app/server.py : the authenticated entry point (API key + user id headers),
    SQLite-backed credit ledger, Flask routes `/credits` and `/analyze/image`.
  - src/server.py : the near-duplicate unauthenticated entry point.
  - src/app/analyser.py : the `PictureDescription` response model and the
    collaborator call.

The ledger table `user_credits` has a UNIQUE `user_id` column and an integer
`credits` column with default 10, so we model it as an association list
`List (String × Int)` with at most one entry per key; each SQL statement in the
source runs in its own connection/transaction, so each store operation below is
one atomic unit.
-/

namespace CreditService

/-- Ledger state: rows of the `user_credits` table, keyed by `user_id`. -/
abbrev Ledger := List (String × Int)

/-- Embeds `get_user_credits` (src/app/server.py): SELECT credits WHERE
user_id = u on the unique-keyed table; `none` models the Python `None`
returned when no row exists. -/
def get_user_credits (u : String) : Ledger → Option Int
  | [] => none
  | p :: rest => if p.1 == u then some p.2 else get_user_credits u rest

/-- Embeds `set_user_credits` (src/app/server.py): INSERT .. ON CONFLICT
DO UPDATE, i.e. upsert of the unique row for `u`. -/
def set_user_credits (u : String) (amount : Int) : Ledger → Ledger
  | [] => [(u, amount)]
  | p :: rest =>
    if p.1 == u then (u, amount) :: rest else p :: set_user_credits u amount rest

/-- Embeds the `INSERT OR IGNORE INTO user_credits (user_id) VALUES (?)`
statement inside `require_credits`: creates the row with the column default
of 10 credits if and only if absent. -/
def insert_or_ignore_default (u : String) : Ledger → Ledger
  | [] => [(u, 10)]
  | p :: rest =>
    if p.1 == u then p :: rest else p :: insert_or_ignore_default u rest

/-- Embeds `require_credits` (src/app/server.py): insert-or-ignore the row,
re-read the balance, raise ValueError "No more credits left" when the balance
is absent or below 1, otherwise write balance - 1. The returned pair is the
outcome (the raised message on denial) and the resulting ledger state. -/
def require_credits (u : String) (db : Ledger) : Except String Unit × Ledger :=
  match get_user_credits u (insert_or_ignore_default u db) with
  | none => (Except.error "No more credits left", insert_or_ignore_default u db)
  | some c =>
    if c < 1 then (Except.error "No more credits left", insert_or_ignore_default u db)
    else (Except.ok (), set_user_credits u (c - 1) (insert_or_ignore_default u db))

/-- All stored balances are non-negative. -/
def nonneg (db : Ledger) : Bool := db.all (fun p => decide (0 ≤ p.2))

-- Store lemmas

theorem get_set_self (u : String) (a : Int) (db : Ledger) :
    get_user_credits u (set_user_credits u a db) = some a := by
  induction db with
  | nil => simp [set_user_credits, get_user_credits]
  | cons p rest ih =>
    by_cases h : (p.1 == u) = true
    · simp [set_user_credits, h, get_user_credits]
    · simp [set_user_credits, h, get_user_credits, ih]

theorem insert_of_present (u : String) (c : Int) (db : Ledger)
    (h : get_user_credits u db = some c) :
    insert_or_ignore_default u db = db := by
  induction db with
  | nil => simp [get_user_credits] at h
  | cons p rest ih =>
    by_cases hp : (p.1 == u) = true
    · simp [insert_or_ignore_default, hp]
    · simp [get_user_credits, hp] at h
      simp [insert_or_ignore_default, hp, ih h]

theorem get_insert_of_absent (u : String) (db : Ledger)
    (h : get_user_credits u db = none) :
    get_user_credits u (insert_or_ignore_default u db) = some 10 := by
  induction db with
  | nil => simp [insert_or_ignore_default, get_user_credits]
  | cons p rest ih =>
    by_cases hp : (p.1 == u) = true
    · simp [get_user_credits, hp] at h
    · simp [get_user_credits, hp] at h
      simp [insert_or_ignore_default, hp, get_user_credits, ih h]

theorem nonneg_insert (u : String) (db : Ledger) (h : nonneg db = true) :
    nonneg (insert_or_ignore_default u db) = true := by
  induction db with
  | nil => simp [insert_or_ignore_default, nonneg]
  | cons p rest ih =>
    simp [nonneg] at h ih
    by_cases hp : (p.1 == u) = true
    · simp [insert_or_ignore_default, hp, nonneg]
      exact ⟨h.1, h.2⟩
    · simp [insert_or_ignore_default, hp, nonneg]
      exact ⟨h.1, ih h.2⟩

theorem nonneg_set (u : String) (a : Int) (db : Ledger)
    (h : nonneg db = true) (ha : 0 ≤ a) :
    nonneg (set_user_credits u a db) = true := by
  induction db with
  | nil => simp [set_user_credits, nonneg, ha]
  | cons p rest ih =>
    simp [nonneg] at h ih
    by_cases hp : (p.1 == u) = true
    · simp [set_user_credits, hp, nonneg]
      exact ⟨ha, h.2⟩
    · simp [set_user_credits, hp, nonneg]
      exact ⟨h.1, ih h.2⟩

-- Credit-gate lemmas

theorem require_credits_denied (u : String) (c : Int) (db : Ledger)
    (h : get_user_credits u db = some c) (hc : c < 1) :
    require_credits u db = (Except.error "No more credits left", db) := by
  have hins := insert_of_present u c db h
  rw [require_credits, hins, h]
  simp [hc]

theorem require_credits_ok (u : String) (b : Int) (db : Ledger)
    (h : get_user_credits u db = some b) (hb : 1 ≤ b) :
    require_credits u db = (Except.ok (), set_user_credits u (b - 1) db) := by
  have hins := insert_of_present u b db h
  have hnb : ¬ b < 1 := by omega
  rw [require_credits, hins, h]
  simp [hnb]

theorem require_credits_fresh (u : String) (db : Ledger)
    (h : get_user_credits u db = none) :
    (require_credits u db).1 = Except.ok () ∧
      get_user_credits u (require_credits u db).2 = some 9 := by
  have hget := get_insert_of_absent u db h
  rw [require_credits, hget]
  have h10 : ¬ (10 : Int) < 1 := by omega
  simp only [h10, if_false]
  refine ⟨by simp, ?_⟩
  have := get_set_self u (10 - 1) (insert_or_ignore_default u db)
  simpa using this

theorem require_credits_nonneg (u : String) (db : Ledger) (h : nonneg db = true) :
    nonneg (require_credits u db).2 = true := by
  have h1 := nonneg_insert u db h
  rw [require_credits]
  cases hg : get_user_credits u (insert_or_ignore_default u db) with
  | none => simpa using h1
  | some c =>
    by_cases hc : c < 1
    · simp [hc]; exact h1
    · simp [hc]
      exact nonneg_set u (c - 1) _ h1 (by omega)

-- HTTP layer model

/-- JSON values appearing in the service's response bodies. -/
inductive JValue where
  | s (v : String)
  | i (v : Int)
  | arr (v : List String)
  deriving DecidableEq

/-- An HTTP response: status code and JSON-object body as key-value pairs. -/
structure Response where
  status : Nat
  body : List (String × JValue)
  deriving DecidableEq

/-- Error response helper mirroring the `jsonify` error bodies in the source. -/
def mkErr (st : Nat) (m : String) : Response :=
  { status := st, body := [("error", JValue.s m)] }

/-- Python truthiness of an optional string: `None` and the empty string are
falsy (the source guards with `if not x`). -/
def pyFalsy : Option String → Bool
  | none => true
  | some s => s.isEmpty

/-- Python `user_credits or 0` as used by the `/credits` handler: returns 0
when the value is `None` or 0, the value itself otherwise. -/
def pyOrZero : Option Int → Int
  | none => 0
  | some c => if c == 0 then 0 else c

/-- Embeds the `PictureDescription` pydantic model (src/app/analyser.py):
fields `name`, `description`, `fun_facts`. -/
structure PictureDescription where
  name : String
  description : String
  fun_facts : List String
  deriving DecidableEq

/-- Python attribute access on a `PictureDescription` instance: defined fields
succeed, any other attribute raises AttributeError (modelled as the error). -/
def PictureDescription.getattr (pd : PictureDescription) (f : String) :
    Except String JValue :=
  if f == "name" then Except.ok (JValue.s pd.name)
  else if f == "description" then Except.ok (JValue.s pd.description)
  else if f == "fun_facts" then Except.ok (JValue.arr pd.fun_facts)
  else Except.error ("PictureDescription object has no attribute " ++ f)

/-- Outcome of the collaborator call `process_image_recognition`: the returned
message (with optional `parsed` structure and optional `refusal` string), the
`LengthFinishReasonError`, or any other raised exception with its message. -/
inductive ApiResult where
  | message (parsed : Option PictureDescription) (refusal : Option String)
  | lengthError
  | apiFailure (msg : String)
  deriving DecidableEq

/-- JSON request body for `/analyze/image`: the `lang` and `image` fields,
each possibly absent. -/
structure Body where
  lang : Option String
  image : Option String
  deriving DecidableEq

/-- Success body built by the authenticated variant (src/app/server.py):
keys `name`, `description`, `synonyms`, the last read from the attribute
`synonyms` of the parsed `PictureDescription`. -/
def success_body_app (pd : PictureDescription) :
    Except String (List (String × JValue)) := do
  let n ← pd.getattr "name"
  let d ← pd.getattr "description"
  let sy ← pd.getattr "synonyms"
  Except.ok [("name", n), ("description", d), ("synonyms", sy)]

/-- Success body built by the unauthenticated variant (src/server.py):
keys `name`, `description`, `funFacts`, the last from `fun_facts`. -/
def success_body_root (pd : PictureDescription) :
    Except String (List (String × JValue)) := do
  let n ← pd.getattr "name"
  let d ← pd.getattr "description"
  let ff ← pd.getattr "fun_facts"
  Except.ok [("name", n), ("description", d), ("funFacts", ff)]

/-- Shared post-admission tail of both `analyze_image` handlers: invoke the
collaborator inside try/except, check `parsed` then `refusal`, map
`LengthFinishReasonError` to 422 "Image too big", and any other raised
exception (including a failure while building the success body) to a 500
whose error string is `str(e)`. -/
def run_analysis (body_of : PictureDescription → Except String (List (String × JValue)))
    (api : ApiResult) (db1 : Ledger) : Response × Ledger :=
  match api with
  | ApiResult.message (some pd) _ =>
    match body_of pd with
    | Except.ok b => ({ status := 200, body := b }, db1)
    | Except.error e => (mkErr 500 e, db1)
  | ApiResult.message none refusal =>
    if pyFalsy refusal then (mkErr 422 "Image cannot be identified", db1)
    else (mkErr 422 "Image is not processable", db1)
  | ApiResult.lengthError => (mkErr 422 "Image too big", db1)
  | ApiResult.apiFailure msg => (mkErr 500 msg, db1)

/-- Embeds the `require_api_key_and_user_id` decorator (src/app/server.py):
reject with 422 "Invalid API key" when the X-Api-Key header is falsy or does
not equal the configured key, then with 422 "Missing required user ID" when
the X-User-Id header is falsy, else run the wrapped handler on the user id. -/
def require_api_key_and_user_id (serverKey apiKeyHdr userIdHdr : Option String)
    (f : String → Ledger → Response × Ledger) (db : Ledger) : Response × Ledger :=
  if pyFalsy apiKeyHdr || apiKeyHdr != serverKey then
    (mkErr 422 "Invalid API key", db)
  else if pyFalsy userIdHdr then
    (mkErr 422 "Missing required user ID", db)
  else
    f (userIdHdr.getD "") db

/-- Inner `analyze_image` handler of the authenticated variant, after the
decorator has extracted the user id: validate the body, run the credit gate
(ValueError maps to 402 with the raised message), then the collaborator. -/
def analyze_image_handler_app (api : ApiResult) (data : Option Body)
    (uid : String) (db : Ledger) : Response × Ledger :=
  match data with
  | none => (mkErr 422 "No data provided", db)
  | some d =>
    if pyFalsy d.lang || pyFalsy d.image then
      (mkErr 422 "Missing required fields", db)
    else
      match require_credits uid db with
      | (Except.error ve, db1) => (mkErr 402 ve, db1)
      | (Except.ok _, db1) => run_analysis success_body_app api db1

/-- Embeds `POST /analyze/image` of the authenticated variant
(src/app/server.py): decorator, body validation, credit gate, collaborator. -/
def analyze_image_app (serverKey apiKeyHdr userIdHdr : Option String)
    (data : Option Body) (api : ApiResult) (db : Ledger) : Response × Ledger :=
  require_api_key_and_user_id serverKey apiKeyHdr userIdHdr
    (analyze_image_handler_app api data) db

/-- Embeds `POST /analyze/image` of the unauthenticated variant
(src/server.py): body validation first, then the X-User-Id check, then the
credit gate and the collaborator; success body uses `funFacts`. -/
def analyze_image_root (userIdHdr : Option String) (data : Option Body)
    (api : ApiResult) (db : Ledger) : Response × Ledger :=
  match data with
  | none => (mkErr 422 "No data provided", db)
  | some d =>
    if pyFalsy d.lang || pyFalsy d.image then
      (mkErr 422 "Missing required fields", db)
    else if pyFalsy userIdHdr then
      (mkErr 422 "Missing required user ID", db)
    else
      match require_credits (userIdHdr.getD "") db with
      | (Except.error ve, db1) => (mkErr 402 ve, db1)
      | (Except.ok _, db1) => run_analysis success_body_root api db1

/-- Inner `/credits` handler: returns `user_credits or 0` for the user, read
from the ledger without any write. -/
def credits_left_handler (uid : String) (db : Ledger) : Response × Ledger :=
  ({ status := 200,
     body := [("credits", JValue.i (pyOrZero (get_user_credits uid db)))] }, db)

/-- Embeds `GET /credits` of the authenticated variant (src/app/server.py):
the decorator guards the read-only balance handler. -/
def credits_left_app (serverKey apiKeyHdr userIdHdr : Option String)
    (db : Ledger) : Response × Ledger :=
  require_api_key_and_user_id serverKey apiKeyHdr userIdHdr
    credits_left_handler db

-- Concurrency model of the credit gate

/-- Outcome projection: did the gate call succeed. -/
def isOk : Except String Unit → Bool
  | Except.ok _ => true
  | Except.error _ => false

/-- One in-flight `require_credits` call, as a thread: its program counter
over the gate's atomic store operations (0 = the INSERT OR IGNORE, 1 = the
balance read, 2 = the decremented write, 3 = returned), the balance it read,
and its outcome (`some true` = Ok, `some false` = Denied). Each SQL statement
in the source runs on its own connection in its own transaction, and no lock
is held across them, so these are exactly the atomic units that interleave. -/
structure GateThread where
  pc : Nat
  localVal : Option Int
  res : Option Bool
  deriving DecidableEq

/-- One atomic step of an in-flight `require_credits u` call against the
shared ledger, following the source line by line. -/
def gate_step (u : String) (t : GateThread) (db : Ledger) : GateThread × Ledger :=
  match t.pc with
  | 0 => ({ t with pc := 1 }, insert_or_ignore_default u db)
  | 1 =>
    match get_user_credits u db with
    | none => ({ t with pc := 3, res := some false }, db)
    | some c =>
      if c < 1 then ({ t with pc := 3, res := some false }, db)
      else ({ t with pc := 2, localVal := some c }, db)
  | 2 =>
    match t.localVal with
    | some c => ({ t with pc := 3, res := some true }, set_user_credits u (c - 1) db)
    | none => ({ t with pc := 3 }, db)
  | _ => (t, db)

/-- Run two concurrent `require_credits u` calls under a schedule: `false`
steps the first thread, `true` steps the second. -/
def run_two (u : String) : List Bool → GateThread × GateThread × Ledger →
    GateThread × GateThread × Ledger
  | [], s => s
  | b :: rest, (ta, tb, db) =>
    if b then
      let sb := gate_step u tb db
      run_two u rest (ta, sb.1, sb.2)
    else
      let sa := gate_step u ta db
      run_two u rest (sa.1, tb, sa.2)

/-- A thread not yet started. -/
def freshThread : GateThread := { pc := 0, localVal := none, res := none }

/-- Sanity check that the interleaving semantics refines the sequential gate:
one thread run to completion with no interference produces exactly the
outcome and final ledger of `require_credits`. -/
theorem run_two_solo_matches_require (u : String) (db : Ledger) :
    (run_two u [false, false, false] (freshThread, freshThread, db)).1.res
        = some (isOk (require_credits u db).1) ∧
      (run_two u [false, false, false] (freshThread, freshThread, db)).2.2
        = (require_credits u db).2 := by
  rw [require_credits]
  cases hg : get_user_credits u (insert_or_ignore_default u db) with
  | none =>
    simp [run_two, gate_step, freshThread, hg, isOk]
  | some c =>
    by_cases hc : c < 1
    · simp [run_two, gate_step, freshThread, hg, hc, isOk]
    · simp [run_two, gate_step, freshThread, hg, hc, isOk]

/-- The unserialized interleaving at the heart of the double-spend: both
threads insert, both read, both write, for a user holding a single credit. -/
def double_spend_run : GateThread × GateThread × Ledger :=
  run_two "u" [false, true, false, true, false, true]
    (freshThread, freshThread, [("u", 1)])

-- Handler-level helper lemmas

theorem pyFalsy_some (s : String) : pyFalsy (some s) = s.isEmpty := rfl

theorem pyOrZero_eq_getD (o : Option Int) : pyOrZero o = o.getD 0 := by
  cases o with
  | none => rfl
  | some c =>
    simp only [pyOrZero, Option.getD_some]
    by_cases h : c = 0
    · simp [h]
    · simp [h]

theorem run_analysis_state (body_of : PictureDescription → Except String (List (String × JValue)))
    (api : ApiResult) (db1 : Ledger) :
    (run_analysis body_of api db1).2 = db1 := by
  cases api with
  | message parsed refusal =>
    cases parsed with
    | some pd =>
      cases hb : body_of pd with
      | ok b => simp [run_analysis, hb]
      | error e => simp [run_analysis, hb, mkErr]
    | none =>
      by_cases hr : pyFalsy refusal = true
      · simp [run_analysis, hr, mkErr]
      · simp [run_analysis, hr, mkErr]
  | lengthError => simp [run_analysis, mkErr]
  | apiFailure msg => simp [run_analysis, mkErr]

theorem run_analysis_shape (body_of : PictureDescription → Except String (List (String × JValue)))
    (api : ApiResult) (db1 : Ledger) :
    (run_analysis body_of api db1).1.status = 200 ∨
      ∃ st m, (run_analysis body_of api db1).1 = mkErr st m := by
  cases api with
  | message parsed refusal =>
    cases parsed with
    | some pd =>
      cases hb : body_of pd with
      | ok b => left; simp [run_analysis, hb]
      | error e => right; exact ⟨500, e, by simp [run_analysis, hb]⟩
    | none =>
      by_cases hr : pyFalsy refusal = true
      · right; exact ⟨422, "Image cannot be identified", by simp [run_analysis, hr]⟩
      · right; exact ⟨422, "Image is not processable", by simp [run_analysis, hr]⟩
  | lengthError => right; exact ⟨422, "Image too big", by simp [run_analysis]⟩
  | apiFailure msg => right; exact ⟨500, msg, by simp [run_analysis]⟩

theorem analyze_image_app_shape (sk ak uidh : Option String) (data : Option Body)
    (api : ApiResult) (db : Ledger) :
    (analyze_image_app sk ak uidh data api db).1.status = 200 ∨
      ∃ st m, (analyze_image_app sk ak uidh data api db).1 = mkErr st m := by
  rw [analyze_image_app, require_api_key_and_user_id]
  by_cases h1 : (pyFalsy ak || ak != sk) = true
  · right; exact ⟨422, "Invalid API key", by simp [h1]⟩
  · by_cases h2 : pyFalsy uidh = true
    · right; exact ⟨422, "Missing required user ID", by simp [h1, h2]⟩
    · simp only [h1, h2, Bool.false_eq_true, if_false]
      rw [analyze_image_handler_app.eq_def]
      cases data with
      | none => right; exact ⟨422, "No data provided", rfl⟩
      | some d =>
        by_cases hm : (pyFalsy d.lang || pyFalsy d.image) = true
        · right; exact ⟨422, "Missing required fields", by simp [hm]⟩
        · simp only [hm, Bool.false_eq_true, if_false]
          cases hrc : require_credits (uidh.getD "") db with
          | mk f s =>
            cases f with
            | error ve => right; exact ⟨402, ve, rfl⟩
            | ok v => exact run_analysis_shape success_body_app api s

theorem credits_left_app_shape (sk ak uidh : Option String) (db : Ledger) :
    (credits_left_app sk ak uidh db).1.status = 200 ∨
      ∃ st m, (credits_left_app sk ak uidh db).1 = mkErr st m := by
  rw [credits_left_app, require_api_key_and_user_id]
  by_cases h1 : (pyFalsy ak || ak != sk) = true
  · right; exact ⟨422, "Invalid API key", by simp [h1]⟩
  · by_cases h2 : pyFalsy uidh = true
    · right; exact ⟨422, "Missing required user ID", by simp [h1, h2]⟩
    · left; simp [h1, h2, credits_left_handler]

theorem analyze_image_app_state (sk ak uidh : Option String) (data : Option Body)
    (api : ApiResult) (db : Ledger) :
    (analyze_image_app sk ak uidh data api db).2 = db ∨
      (analyze_image_app sk ak uidh data api db).2
        = (require_credits (uidh.getD "") db).2 := by
  rw [analyze_image_app, require_api_key_and_user_id]
  by_cases h1 : (pyFalsy ak || ak != sk) = true
  · left; simp [h1]
  · by_cases h2 : pyFalsy uidh = true
    · left; simp [h1, h2]
    · simp only [h1, h2, Bool.false_eq_true, if_false]
      rw [analyze_image_handler_app.eq_def]
      cases data with
      | none => left; rfl
      | some d =>
        by_cases hm : (pyFalsy d.lang || pyFalsy d.image) = true
        · left; simp [hm]
        · simp only [hm, Bool.false_eq_true, if_false]
          cases hrc : require_credits (uidh.getD "") db with
          | mk f s =>
            cases f with
            | error ve => right; simp [hrc]
            | ok v =>
              right
              rw [run_analysis_state success_body_app api s]

theorem credits_left_app_state (sk ak uidh : Option String) (db : Ledger) :
    (credits_left_app sk ak uidh db).2 = db := by
  rw [credits_left_app, require_api_key_and_user_id]
  by_cases h1 : (pyFalsy ak || ak != sk) = true
  · simp [h1]
  · by_cases h2 : pyFalsy uidh = true
    · simp [h1, h2]
    · simp [h1, h2, credits_left_handler]

/-- Ledger state after n sequential `require_credits` calls for one user. -/
def require_credits_iter (u : String) (db : Ledger) : Nat → Ledger
  | 0 => db
  | n + 1 => (require_credits u (require_credits_iter u db n)).2

instance : DecidableEq (Except String Unit) := fun a b =>
  match a, b with
  | Except.ok x, Except.ok y =>
    if h : x = y then Decidable.isTrue (by rw [h])
    else Decidable.isFalse (by intro hc; injection hc; contradiction)
  | Except.error x, Except.error y =>
    if h : x = y then Decidable.isTrue (by rw [h])
    else Decidable.isFalse (by intro hc; injection hc; contradiction)
  | Except.ok _, Except.error _ => Decidable.isFalse (by intro hc; injection hc)
  | Except.error _, Except.ok _ => Decidable.isFalse (by intro hc; injection hc)

/-- Sample parsed collaborator result used in concrete evaluations. -/
def samplePd : PictureDescription :=
  { name := "apple", description := "a red fruit", fun_facts := ["f1", "f2", "f3"] }

/-- Sample valid request body used in concrete evaluations. -/
def sampleBody : Body := { lang := some "en", image := some "img" }

-- Claim theorems

/-- Claim C1: the claim asserts that two concurrent admits at balance 1 yield
exactly one Ok because the gate's read-decide-write is serialized per user.
The code takes no lock and runs each SQL statement on its own connection, so
the transactions interleave freely; this theorem evaluates the gate at the
claimed scenario under the interleaving insert,insert,read,read,write,write
and shows both calls return Ok with final balance 0 — the double-spend the
spec warns about. -/
theorem C1_concurrent_double_spend :
    double_spend_run.1.res = some true ∧ double_spend_run.2.1.res = some true ∧
      get_user_credits "u" double_spend_run.2.2 = some 0 := by decide

/-- Claim C2: a gate call that finds the balance below 1 is denied with the
ledger unchanged, and the gate preserves non-negativity of every stored
balance; in particular a balance of 0 stays 0 under a denied admit. -/
theorem C2_floor_no_negative_balance (u : String) (db : Ledger) :
    (∀ c : Int, get_user_credits u db = some c → c < 1 →
        require_credits u db = (Except.error "No more credits left", db)) ∧
    (nonneg db = true → nonneg (require_credits u db).2 = true) :=
  ⟨fun c h hc => require_credits_denied u c db h hc,
   fun h => require_credits_nonneg u db h⟩

/-- Witness for C2 at a user holding 0 credits. -/
theorem C2_floor_no_negative_balance_witness :
    require_credits "z" [("z", 0)]
        = (Except.error "No more credits left", [("z", 0)]) ∧
      nonneg (require_credits "z" [("z", 0)]).2 = true :=
  ⟨(C2_floor_no_negative_balance "z" [("z", 0)]).1 0 (by decide) (by decide),
   (C2_floor_no_negative_balance "z" [("z", 0)]).2 (by decide)⟩

/-- Claim C3: a successful admit leaves the balance at exactly b - 1; the
balance query never changes the ledger and the analyze endpoint changes it
only through the credit gate; a fresh user's 10 sequential admits see
balances 9,8,...,0 and the 11th is denied. -/
theorem C3_monotonic_decrement :
    (∀ (u : String) (db : Ledger) (b : Int),
        get_user_credits u db = some b → 1 ≤ b →
          (require_credits u db).1 = Except.ok () ∧
            get_user_credits u (require_credits u db).2 = some (b - 1)) ∧
    (∀ (sk ak uidh : Option String) (db : Ledger),
        (credits_left_app sk ak uidh db).2 = db) ∧
    (∀ (sk ak uidh : Option String) (data : Option Body) (api : ApiResult)
        (db : Ledger),
        (analyze_image_app sk ak uidh data api db).2 = db ∨
          (analyze_image_app sk ak uidh data api db).2
            = (require_credits (uidh.getD "") db).2) ∧
    ((List.range 10).map
        (fun k => get_user_credits "u1" (require_credits_iter "u1" [] (k + 1)))
      = [some 9, some 8, some 7, some 6, some 5, some 4, some 3, some 2,
         some 1, some 0]) ∧
    ((List.range 10).all
        (fun k => isOk (require_credits "u1" (require_credits_iter "u1" [] k)).1)
      = true) ∧
    ((require_credits "u1" (require_credits_iter "u1" [] 10)).1
      = Except.error "No more credits left") := by
  refine ⟨?_, credits_left_app_state, analyze_image_app_state,
    by decide, by decide, by decide⟩
  intro u db b hb h1
  rw [require_credits_ok u b db hb h1]
  exact ⟨rfl, get_set_self u (b - 1) db⟩

/-- Witness for C3 at a user holding 5 credits. -/
theorem C3_monotonic_decrement_witness :
    (require_credits "w" [("w", 5)]).1 = Except.ok () ∧
      get_user_credits "w" (require_credits "w" [("w", 5)]).2 = some (5 - 1) :=
  C3_monotonic_decrement.1 "w" [("w", 5)] 5 (by decide) (by decide)

/-- Claim C4: the claim says a parsed collaborator result yields the body
with keys name, description, funFacts. In the authenticated variant the
handler instead reads the nonexistent attribute `synonyms` of the parsed
`PictureDescription` (which defines `fun_facts`), so the AttributeError is
caught by the generic handler and the response is a 500, never the claimed
body; the unauthenticated variant produces exactly the claimed body. -/
theorem C4_synonyms_attribute_bug :
    (analyze_image_app (some "k") (some "k") (some "u") (some sampleBody)
        (ApiResult.message (some samplePd) none) [("u", 5)]).1
      = mkErr 500 "PictureDescription object has no attribute synonyms" ∧
    (analyze_image_root (some "u") (some sampleBody)
        (ApiResult.message (some samplePd) none) [("u", 5)]).1
      = { status := 200,
          body := [("name", JValue.s "apple"),
                   ("description", JValue.s "a red fruit"),
                   ("funFacts", JValue.arr ["f1", "f2", "f3"])] } := by decide

/-- Claim C5: a request missing the language tag or the image payload is
rejected with 422 "Missing required fields" before the credit gate runs, so
the ledger is returned unchanged whatever the balances are. -/
theorem C5_validation_precedes_cost (sk ak uidh : Option String) (d : Body)
    (api : ApiResult) (db : Ledger)
    (hk : (pyFalsy ak || ak != sk) = false)
    (hu : pyFalsy uidh = false)
    (hmiss : (pyFalsy d.lang || pyFalsy d.image) = true) :
    analyze_image_app sk ak uidh (some d) api db
      = (mkErr 422 "Missing required fields", db) := by
  rw [analyze_image_app, require_api_key_and_user_id]
  simp [hk, hu]
  rw [analyze_image_handler_app.eq_def]
  simp [hmiss]

/-- Witness for C5: a body with no language tag against a funded user. -/
theorem C5_validation_precedes_cost_witness :
    analyze_image_app (some "k") (some "k") (some "w")
        (some { lang := none, image := some "img" }) ApiResult.lengthError
        [("w", 3)]
      = (mkErr 422 "Missing required fields", [("w", 3)]) :=
  C5_validation_precedes_cost (some "k") (some "k") (some "w")
    { lang := none, image := some "img" } ApiResult.lengthError [("w", 3)]
    (by decide) (by decide) (by decide)

/-- Claim C6: with a valid key and identity, the balance query returns the
stored balance, defaulting to 0 when no row exists, leaves the ledger
untouched, and repeated queries return the same value. -/
theorem C6_balance_query_read_only (sk ak : Option String) (u : String)
    (db : Ledger)
    (hk : (pyFalsy ak || ak != sk) = false)
    (hu : u.isEmpty = false) :
    credits_left_app sk ak (some u) db
        = ({ status := 200,
             body := [("credits", JValue.i ((get_user_credits u db).getD 0))] },
           db) ∧
      (credits_left_app sk ak (some u)
          (credits_left_app sk ak (some u) db).2).1
        = (credits_left_app sk ak (some u) db).1 := by
  have hmain : credits_left_app sk ak (some u) db
      = ({ status := 200,
           body := [("credits", JValue.i ((get_user_credits u db).getD 0))] },
         db) := by
    rw [credits_left_app, require_api_key_and_user_id]
    simp [hk, pyFalsy_some, hu, credits_left_handler, pyOrZero_eq_getD]
  exact ⟨hmain, by simp [hmain]⟩

/-- Witness for C6 at a user with no ledger row. -/
theorem C6_balance_query_read_only_witness :
    credits_left_app (some "k") (some "k") (some "w") [("x", 7)]
        = ({ status := 200,
             body := [("credits",
               JValue.i ((get_user_credits "w" [("x", 7)]).getD 0))] },
           [("x", 7)]) ∧
      (credits_left_app (some "k") (some "k") (some "w")
          (credits_left_app (some "k") (some "k") (some "w") [("x", 7)]).2).1
        = (credits_left_app (some "k") (some "k") (some "w") [("x", 7)]).1 :=
  C6_balance_query_read_only (some "k") (some "k") "w" [("x", 7)]
    (by decide) (by decide)

/-- Claim C7: a valid, admitted request whose collaborator result is a
refusal gets 422 with error "Image is not processable", and the balance has
still gone down by exactly 1: the consumed credit is not refunded. -/
theorem C7_refusal_after_debit (sk ak : Option String) (u : String) (d : Body)
    (r : String) (db : Ledger) (b : Int)
    (hk : (pyFalsy ak || ak != sk) = false)
    (hu : u.isEmpty = false)
    (hl : pyFalsy d.lang = false) (hi : pyFalsy d.image = false)
    (hb : get_user_credits u db = some b) (h1 : 1 ≤ b)
    (hr : r.isEmpty = false) :
    (analyze_image_app sk ak (some u) (some d)
        (ApiResult.message none (some r)) db).1
        = mkErr 422 "Image is not processable" ∧
      get_user_credits u (analyze_image_app sk ak (some u) (some d)
        (ApiResult.message none (some r)) db).2 = some (b - 1) := by
  have hmain : analyze_image_app sk ak (some u) (some d)
      (ApiResult.message none (some r)) db
      = (mkErr 422 "Image is not processable", set_user_credits u (b - 1) db) := by
    rw [analyze_image_app, require_api_key_and_user_id]
    simp [hk, pyFalsy_some, hu]
    rw [analyze_image_handler_app.eq_def]
    simp [hl, hi]
    rw [require_credits_ok u b db hb h1]
    simp [run_analysis, pyFalsy_some, hr]
  rw [hmain]
  exact ⟨rfl, get_set_self u (b - 1) db⟩

/-- Witness for C7: a refusing collaborator against a user with 2 credits. -/
theorem C7_refusal_after_debit_witness :
    (analyze_image_app (some "k") (some "k") (some "w") (some sampleBody)
        (ApiResult.message none (some "no")) [("w", 2)]).1
        = mkErr 422 "Image is not processable" ∧
      get_user_credits "w" (analyze_image_app (some "k") (some "k") (some "w")
        (some sampleBody) (ApiResult.message none (some "no")) [("w", 2)]).2
        = some (2 - 1) :=
  C7_refusal_after_debit (some "k") (some "k") "w" sampleBody "no" [("w", 2)] 2
    (by decide) (by decide) (by decide) (by decide) (by decide) (by decide)
    (by decide)

/-- Claim C8, counterexample: a collaborator fault whose exception message
carries internal detail is returned verbatim as the error string with status
500, not as a generic internal-failure message. -/
theorem C8_fault_detail_leaked :
    (analyze_image_app (some "k") (some "k") (some "u") (some sampleBody)
        (ApiResult.apiFailure "unable to open database file credits.db")
        [("u", 5)]).1
      = mkErr 500 "unable to open database file credits.db" ∧
    (analyze_image_app (some "k") (some "k") (some "u") (some sampleBody)
        (ApiResult.apiFailure "unable to open database file credits.db")
        [("u", 5)]).1
      ≠ mkErr 500 "Internal server error" := by decide

/-- Claim C8, amended: every error outcome of the modelled endpoints carries
a JSON body with a single error string field, but an unexpected collaborator
fault is answered with the exception's own message as that string (status
500), not with a fixed generic message. -/
theorem C8_error_body_shape (sk ak uidh : Option String) (data : Option Body)
    (api : ApiResult) (db : Ledger) :
    ((analyze_image_app sk ak uidh data api db).1.status ≠ 200 →
        ∃ m, (analyze_image_app sk ak uidh data api db).1.body
          = [("error", JValue.s m)]) ∧
    ((credits_left_app sk ak uidh db).1.status ≠ 200 →
        ∃ m, (credits_left_app sk ak uidh db).1.body
          = [("error", JValue.s m)]) ∧
    (∀ (d : Body) (msg : String),
      (pyFalsy ak || ak != sk) = false → pyFalsy uidh = false →
      (pyFalsy d.lang || pyFalsy d.image) = false →
      (require_credits (uidh.getD "") db).1 = Except.ok () →
      (analyze_image_app sk ak uidh (some d) (ApiResult.apiFailure msg) db).1
        = mkErr 500 msg) := by
  refine ⟨?_, ?_, ?_⟩
  · intro hne
    rcases analyze_image_app_shape sk ak uidh data api db with h | ⟨st, m, h⟩
    · exact absurd h hne
    · exact ⟨m, by rw [h]; rfl⟩
  · intro hne
    rcases credits_left_app_shape sk ak uidh db with h | ⟨st, m, h⟩
    · exact absurd h hne
    · exact ⟨m, by rw [h]; rfl⟩
  · intro d msg hk hu hm hok
    rw [analyze_image_app, require_api_key_and_user_id]
    simp [hk, hu]
    rw [analyze_image_handler_app.eq_def]
    simp [hm]
    cases hrc : require_credits (uidh.getD "") db with
    | mk f s =>
      cases f with
      | error ve => rw [hrc] at hok; simp at hok
      | ok v => simp [run_analysis]

/-- Witness for C8 amended, at concrete rejected and faulting requests. -/
theorem C8_error_body_shape_witness :
    (∃ m, (analyze_image_app (some "k") none none none ApiResult.lengthError
        []).1.body = [("error", JValue.s m)]) ∧
    (∃ m, (credits_left_app (some "k") none none []).1.body
        = [("error", JValue.s m)]) ∧
    (analyze_image_app (some "k") (some "k") (some "w") (some sampleBody)
        (ApiResult.apiFailure "boom") [("w", 2)]).1 = mkErr 500 "boom" :=
  ⟨(C8_error_body_shape (some "k") none none none ApiResult.lengthError
      []).1 (by decide),
   (C8_error_body_shape (some "k") none none none ApiResult.lengthError
      []).2.1 (by decide),
   (C8_error_body_shape (some "k") (some "k") (some "w") none
      ApiResult.lengthError [("w", 2)]).2.2 sampleBody "boom"
      (by decide) (by decide) (by decide) (by decide)⟩

/-- Claim C9: a single uncontended admit for a user with no ledger row never
fails: the insert seeds the default 10 credits, the read sees 10, and the
call succeeds leaving the balance at 9. -/
theorem C9_fresh_user_first_ok (u : String) (db : Ledger)
    (h : get_user_credits u db = none) :
    (require_credits u db).1 = Except.ok () ∧
      get_user_credits u (require_credits u db).2 = some 9 :=
  require_credits_fresh u db h

/-- Witness for C9 on the empty ledger. -/
theorem C9_fresh_user_first_ok_witness :
    (require_credits "fresh" []).1 = Except.ok () ∧
      get_user_credits "fresh" (require_credits "fresh" []).2 = some 9 :=
  C9_fresh_user_first_ok "fresh" [] (by decide)

/-- Claim C10: in the authenticated variant a missing or mismatched API key
on the balance query is answered 422 with error "Invalid API key" before the
user id is examined, and the ledger is returned untouched. -/
theorem C10_api_key_guards_credits (sk ak uidh : Option String) (db : Ledger)
    (hk : (pyFalsy ak || ak != sk) = true) :
    credits_left_app sk ak uidh db = (mkErr 422 "Invalid API key", db) := by
  rw [credits_left_app, require_api_key_and_user_id]
  simp [hk]

/-- Witness for C10: no key and no user id header at all. -/
theorem C10_api_key_guards_credits_witness :
    credits_left_app (some "k") none none [("w", 3)]
      = (mkErr 422 "Invalid API key", [("w", 3)]) :=
  C10_api_key_guards_credits (some "k") none none [("w", 3)] (by decide)

end CreditService
